import Mathlib

/-!
Verification of the beacon_snowflake transcript pipeline.

The development shallow-embeds the orchestration core of the repository:
the daily scheduler and dedup logic of `src/listener.py`, the field
validation of `src/fetcher.py`, the polling loop of
`src/assistant_bridge.py`, the retry wrappers supplied by tenacity
decorators, the Drive document update of `src/drive_documenter.py`, and
the per-item processing and worker loop of `src/orchestrator.py`.
External collaborators (Gong, Snowflake, OpenAI, Drive, SMTP) appear as
explicit inputs or explicit state, and raised exceptions are modelled
with `Except`.
-/

namespace BeaconSnowflake

/-- Minutes in one wall-clock day; the listener schedules in days. -/
def minutesPerDay : Nat := 1440

/-- Embeds `listener.py` line 83: `scheduled_today =
datetime.combine(now.date(), dt_time(run_hour, run_minute))`.  Datetimes
are modelled as total minutes since an epoch, so midnight of the current
day is `now / 1440 * 1440`. -/
def scheduled_today (runHour runMinute now : Nat) : Nat :=
  now / minutesPerDay * minutesPerDay + (runHour * 60 + runMinute)

/-- Embeds `listener.py` line 84: `next_run = scheduled_today if now <
scheduled_today else scheduled_today + timedelta(days=1)`. -/
def initial_next_run (runHour runMinute now : Nat) : Nat :=
  if now < scheduled_today runHour runMinute now then
    scheduled_today runHour runMinute now
  else
    scheduled_today runHour runMinute now + minutesPerDay

/-- Embeds `listener.py` line 114: after a firing `next_run +=
timedelta(days=1)`; the wall clock is not consulted. -/
def advance_next_run (nextRun : Nat) : Nat := nextRun + minutesPerDay

/-- Next-run value after `k` successive firings of the listener main
loop, each applying `advance_next_run` to the previous value. -/
def next_run_after_firings : Nat → Nat → Nat
  | nextRun, 0 => nextRun
  | nextRun, k + 1 => next_run_after_firings (advance_next_run nextRun) k

theorem next_run_after_firings_eq (nextRun k : Nat) :
    next_run_after_firings nextRun k = nextRun + k * minutesPerDay := by
  induction k generalizing nextRun with
  | zero => simp [next_run_after_firings]
  | succ n ih =>
    rw [next_run_after_firings, ih, advance_next_run]
    ring

/-- State owned by `GongListener`: `processed_ids` (the SeenSet of the
spec) and the shared `event_queue`, observed as lists, the queue in FIFO
order (`listener.py` lines 20-21). -/
structure ListenerState where
  processed_ids : List String
  event_queue : List String
  deriving DecidableEq, Repr

/-- Embeds `listener.py` lines 100-106 for a single discovery row.  The
argument is `row.get('transcript_id')` (`none` when the key is absent);
the row is acted on only when the identifier is truthy (non-empty) and
not yet in `processed_ids`, in which case it is pushed onto the queue
and added to the seen set in the same step. -/
def process_row (st : ListenerState) (tid? : Option String) : ListenerState :=
  match tid? with
  | none => st
  | some tid =>
    if tid ≠ "" ∧ tid ∉ st.processed_ids then
      { processed_ids := st.processed_ids ++ [tid],
        event_queue := st.event_queue ++ [tid] }
    else st

/-- Embeds the `for row in new_rows` loop of one polling cycle
(`listener.py` lines 100-111). -/
def process_cycle (st : ListenerState) (rows : List (Option String)) : ListenerState :=
  rows.foldl process_row st

/-- Several polling cycles within one process lifetime (the listener
fires once per scheduled day). -/
def process_cycles (st : ListenerState) (cycles : List (List (Option String))) : ListenerState :=
  cycles.foldl process_cycle st

/-- Fresh listener state at process start (`processed_ids = set()`,
empty queue). -/
def initialListenerState : ListenerState := ⟨[], []⟩

/-- Dedup invariant of the listener: every identifier appears at most
once in the queue, and every queued identifier is recorded as seen. -/
def QueueOnceInv (st : ListenerState) : Prop :=
  ∀ id : String, st.event_queue.count id ≤ 1 ∧
    (id ∈ st.event_queue → id ∈ st.processed_ids)

theorem process_row_none (st : ListenerState) : process_row st none = st := rfl

theorem process_row_eq_of_new (st : ListenerState) (tid : String)
    (hc : tid ≠ "" ∧ tid ∉ st.processed_ids) :
    process_row st (some tid) =
      { processed_ids := st.processed_ids ++ [tid],
        event_queue := st.event_queue ++ [tid] } := by
  simp [process_row, hc]

theorem process_row_eq_of_old (st : ListenerState) (tid : String)
    (hc : ¬ (tid ≠ "" ∧ tid ∉ st.processed_ids)) :
    process_row st (some tid) = st := by
  simp only [process_row, if_neg hc]

theorem process_row_processed_mono (st : ListenerState) (row : Option String)
    (id : String) (h : id ∈ st.processed_ids) :
    id ∈ (process_row st row).processed_ids := by
  cases row with
  | none => simpa [process_row_none] using h
  | some tid =>
    by_cases hc : tid ≠ "" ∧ tid ∉ st.processed_ids
    · rw [process_row_eq_of_new st tid hc]
      exact List.mem_append.mpr (Or.inl h)
    · rw [process_row_eq_of_old st tid hc]
      exact h

theorem process_row_count_of_processed (st : ListenerState) (row : Option String)
    (id : String) (h : id ∈ st.processed_ids) :
    (process_row st row).event_queue.count id = st.event_queue.count id := by
  cases row with
  | none => rw [process_row_none]
  | some tid =>
    by_cases hc : tid ≠ "" ∧ tid ∉ st.processed_ids
    · have hne : ¬ (tid = id) := fun he => hc.2 (he ▸ h)
      have h1 : List.count id [tid] = 0 :=
        List.count_eq_zero.mpr (fun hm => hne (List.mem_singleton.mp hm).symm)
      rw [process_row_eq_of_new st tid hc]
      simp [List.count_append, h1]
    · rw [process_row_eq_of_old st tid hc]

theorem process_row_inv (st : ListenerState) (row : Option String)
    (h : QueueOnceInv st) : QueueOnceInv (process_row st row) := by
  cases row with
  | none => simpa [process_row_none] using h
  | some tid =>
    by_cases hc : tid ≠ "" ∧ tid ∉ st.processed_ids
    · intro id
      have hid := h id
      have hqid : tid ∉ st.event_queue := fun hq => hc.2 ((h tid).2 hq)
      rw [process_row_eq_of_new st tid hc]
      constructor
      · by_cases hit : id = tid
        · subst hit
          have h0 : st.event_queue.count id = 0 := List.count_eq_zero.mpr hqid
          simp [List.count_append, h0]
        · have hit' : ¬ (tid = id) := fun he => hit he.symm
          have h1 : List.count id [tid] = 0 :=
            List.count_eq_zero.mpr (fun hm => hit' (List.mem_singleton.mp hm).symm)
          have := hid.1
          simp [List.count_append, h1]
          omega
      · intro hmem
        rcases List.mem_append.mp hmem with hq | hq
        · exact List.mem_append.mpr (Or.inl (hid.2 hq))
        · exact List.mem_append.mpr (Or.inr hq)
    · rw [process_row_eq_of_old st tid hc]
      exact h

theorem process_cycle_processed_mono (st : ListenerState) (rows : List (Option String))
    (id : String) (h : id ∈ st.processed_ids) :
    id ∈ (process_cycle st rows).processed_ids := by
  induction rows generalizing st with
  | nil => simpa [process_cycle] using h
  | cons r rs ih =>
    rw [process_cycle, List.foldl_cons]
    exact ih _ (process_row_processed_mono st r id h)

theorem process_cycle_count_of_processed (st : ListenerState) (rows : List (Option String))
    (id : String) (h : id ∈ st.processed_ids) :
    (process_cycle st rows).event_queue.count id = st.event_queue.count id := by
  induction rows generalizing st with
  | nil => simp [process_cycle]
  | cons r rs ih =>
    rw [process_cycle, List.foldl_cons]
    rw [show List.foldl process_row (process_row st r) rs =
      process_cycle (process_row st r) rs from rfl]
    rw [ih _ (process_row_processed_mono st r id h)]
    exact process_row_count_of_processed st r id h

theorem process_cycle_inv (st : ListenerState) (rows : List (Option String))
    (h : QueueOnceInv st) : QueueOnceInv (process_cycle st rows) := by
  induction rows generalizing st with
  | nil => simpa [process_cycle] using h
  | cons r rs ih =>
    rw [process_cycle, List.foldl_cons]
    exact ih _ (process_row_inv st r h)

theorem process_cycles_processed_mono (st : ListenerState)
    (cycles : List (List (Option String))) (id : String) (h : id ∈ st.processed_ids) :
    id ∈ (process_cycles st cycles).processed_ids := by
  induction cycles generalizing st with
  | nil => simpa [process_cycles] using h
  | cons c cs ih =>
    rw [process_cycles, List.foldl_cons]
    exact ih _ (process_cycle_processed_mono st c id h)

theorem process_cycles_count_of_processed (st : ListenerState)
    (cycles : List (List (Option String))) (id : String) (h : id ∈ st.processed_ids) :
    (process_cycles st cycles).event_queue.count id = st.event_queue.count id := by
  induction cycles generalizing st with
  | nil => simp [process_cycles]
  | cons c cs ih =>
    rw [process_cycles, List.foldl_cons]
    rw [show List.foldl process_cycle (process_cycle st c) cs =
      process_cycles (process_cycle st c) cs from rfl]
    rw [ih _ (process_cycle_processed_mono st c id h)]
    exact process_cycle_count_of_processed st c id h

theorem process_cycles_inv (st : ListenerState)
    (cycles : List (List (Option String))) (h : QueueOnceInv st) :
    QueueOnceInv (process_cycles st cycles) := by
  induction cycles generalizing st with
  | nil => simpa [process_cycles] using h
  | cons c cs ih =>
    rw [process_cycles, List.foldl_cons]
    exact ih _ (process_cycle_inv st c h)

/-- C6: across all polling cycles within one process lifetime the
poller enqueues each identifier at most once; an identifier already in
the SeenSet is never pushed again, and any identifier an individual row
step newly enqueues is added to the SeenSet by that same step. -/
theorem poller_enqueues_at_most_once (cycles : List (List (Option String)))
    (id : String) (st : ListenerState) (row : Option String) :
    (process_cycles initialListenerState cycles).event_queue.count id ≤ 1 ∧
    (id ∈ st.processed_ids →
      (process_cycles st cycles).event_queue.count id = st.event_queue.count id) ∧
    (id ∈ (process_row st row).event_queue →
      id ∈ st.event_queue ∨ id ∈ (process_row st row).processed_ids) := by
  refine ⟨?_, ?_, ?_⟩
  · have h0 : QueueOnceInv initialListenerState := by
      intro i
      simp [initialListenerState]
    exact (process_cycles_inv initialListenerState cycles h0 id).1
  · intro h
    exact process_cycles_count_of_processed st cycles id h
  · intro hmem
    cases row with
    | none => exact Or.inl (by simpa [process_row_none] using hmem)
    | some tid =>
      by_cases hc : tid ≠ "" ∧ tid ∉ st.processed_ids
      · rw [process_row_eq_of_new st tid hc] at hmem ⊢
        rcases List.mem_append.mp hmem with hq | hq
        · exact Or.inl hq
        · exact Or.inr (List.mem_append.mpr (Or.inr hq))
      · rw [process_row_eq_of_old st tid hc] at hmem
        exact Or.inl hmem

theorem poller_enqueues_at_most_once_witness :
    ("a" ∈ (⟨["a"], ["a"]⟩ : ListenerState).processed_ids) ∧
    (process_cycles ⟨["a"], ["a"]⟩ [[some "a"]]).event_queue.count "a" =
      (⟨["a"], ["a"]⟩ : ListenerState).event_queue.count "a" :=
  ⟨by decide,
    (poller_enqueues_at_most_once [[some "a"]] "a" ⟨["a"], ["a"]⟩ none).2.1 (by decide)⟩

/-- C10: a discovery row whose identifier is absent or empty is skipped
entirely — the listener state after the cycle is the same as if the row
were not in the response, so the remaining rows are processed normally
and nothing is enqueued or marked seen for the bad row. -/
theorem empty_identifier_row_skipped (st : ListenerState)
    (pre post : List (Option String)) (row : Option String)
    (hrow : row = none ∨ row = some "") :
    process_cycle st (pre ++ row :: post) = process_cycle st (pre ++ post) := by
  have hfix : ∀ s : ListenerState, process_row s row = s := by
    intro s
    rcases hrow with h | h <;> subst h <;> simp [process_row]
  simp only [process_cycle, List.foldl_append, List.foldl_cons, hfix]

theorem empty_identifier_row_skipped_witness :
    process_cycle initialListenerState [some "x", none, some "y"] =
      process_cycle initialListenerState [some "x", some "y"] :=
  empty_identifier_row_skipped initialListenerState [some "x"] [some "y"] none
    (Or.inl rfl)

/-- C5: if the current wall-clock time is before today's configured
hour:minute the first computed next run is today at that time, otherwise
tomorrow at that time; and each firing advances the next-run value by
exactly one day, independent of the wall clock. -/
theorem next_run_schedule_correct (runHour runMinute now nextRun k : Nat)
    (hconf : runHour * 60 + runMinute < minutesPerDay) :
    (now % minutesPerDay < runHour * 60 + runMinute →
      initial_next_run runHour runMinute now / minutesPerDay = now / minutesPerDay ∧
      initial_next_run runHour runMinute now % minutesPerDay = runHour * 60 + runMinute) ∧
    (runHour * 60 + runMinute ≤ now % minutesPerDay →
      initial_next_run runHour runMinute now / minutesPerDay = now / minutesPerDay + 1 ∧
      initial_next_run runHour runMinute now % minutesPerDay = runHour * 60 + runMinute) ∧
    next_run_after_firings nextRun k = nextRun + k * minutesPerDay := by
  refine ⟨?_, ?_, next_run_after_firings_eq nextRun k⟩
  all_goals
    intro h
    simp only [initial_next_run, scheduled_today, minutesPerDay] at h hconf ⊢
    split_ifs with hlt <;> omega

theorem next_run_schedule_correct_witness :
    (360 % minutesPerDay < 7 * 60 + 0) ∧
    initial_next_run 7 0 360 / minutesPerDay = 360 / minutesPerDay ∧
    initial_next_run 7 0 360 % minutesPerDay = 7 * 60 + 0 :=
  ⟨by decide, (next_run_schedule_correct 7 0 360 0 0 (by decide)).1 (by decide)⟩

/-- Row produced by the Snowflake query of `fetcher.py` lines 41-55, in
SELECT column order (`row[0]` … `row[7]`). -/
structure FetchRow where
  transcript_id : String
  account_name : String
  account_number : String
  speaker_name : String
  speaker_email : String
  cs_email : String
  am_email : String
  transcript_text : String
  deriving DecidableEq, Repr

/-- Embeds the `TranscriptData` dataclass of `fetcher.py` lines 16-25. -/
structure TranscriptData where
  transcript_id : String
  account_name : String
  account_number : String
  speaker_name : String
  speaker_email : String
  cs_email : String
  am_email : String
  transcript_text : String
  deriving DecidableEq, Repr

/-- Embeds `fetcher.py` lines 67-87: `cursor.fetchone()` gives the
optional row; `if not row: return None`; then `if not all([row[1],
row[2], row[3], row[4], row[5], row[6], row[7]]): return None` (Python
truthiness on strings: empty means falsy), else the `TranscriptData` is
built from the row.  The tenacity decorator and exception path of the
same function are modelled by `retry_stop3`. -/
def fetch_data_of_row : Option FetchRow → Option TranscriptData
  | none => none
  | some row =>
    if row.account_name ≠ "" ∧ row.account_number ≠ "" ∧ row.speaker_name ≠ "" ∧
        row.speaker_email ≠ "" ∧ row.cs_email ≠ "" ∧ row.am_email ≠ "" ∧
        row.transcript_text ≠ "" then
      some ⟨row.transcript_id, row.account_name, row.account_number, row.speaker_name,
        row.speaker_email, row.cs_email, row.am_email, row.transcript_text⟩
    else none

/-- Written from the words of the spec for comparison with the code:
"all seven fields must be non-empty", the list naming the identifier
echo among them. -/
def specAllFieldsNonEmpty (row : FetchRow) : Prop :=
  row.transcript_id ≠ "" ∧ row.account_name ≠ "" ∧ row.account_number ≠ "" ∧
    row.speaker_name ≠ "" ∧ row.speaker_email ≠ "" ∧ row.cs_email ≠ "" ∧
    row.am_email ≠ "" ∧ row.transcript_text ≠ ""

instance (row : FetchRow) : Decidable (specAllFieldsNonEmpty row) := by
  unfold specAllFieldsNonEmpty
  infer_instance

/-- Fields the code actually validates: `row[1]` … `row[7]`, i.e. every
field except the identifier echo. -/
def requiredSevenNonEmpty (row : FetchRow) : Prop :=
  row.account_name ≠ "" ∧ row.account_number ≠ "" ∧ row.speaker_name ≠ "" ∧
    row.speaker_email ≠ "" ∧ row.cs_email ≠ "" ∧ row.am_email ≠ "" ∧
    row.transcript_text ≠ ""

instance (row : FetchRow) : Decidable (requiredSevenNonEmpty row) := by
  unfold requiredSevenNonEmpty
  infer_instance

/-- C4 fails as stated: a row whose identifier echo is empty but whose
other seven fields are non-empty still yields a populated record, so
validation does not cover the identifier echo. -/
theorem fetch_seven_fields_counterexample :
    (fetch_data_of_row (some ⟨"", "Acme", "42", "Ana", "ana@x.io", "cs@x.io",
      "am@x.io", "body"⟩)).isSome = true ∧
    ¬ specAllFieldsNonEmpty ⟨"", "Acme", "42", "Ana", "ana@x.io", "cs@x.io",
      "am@x.io", "body"⟩ := by
  constructor
  · rfl
  · intro h
    exact h.1 rfl

/-- C4 amended: the fetch stage validates the seven fields after the
identifier echo — a record is returned exactly when the row is present
and those seven are non-empty, the identifier echo being passed through
unvalidated; an absent row yields `none`. -/
theorem fetch_validates_seven_fields (row : FetchRow) :
    fetch_data_of_row none = none ∧
    ((fetch_data_of_row (some row)).isSome ↔ requiredSevenNonEmpty row) ∧
    (requiredSevenNonEmpty row →
      fetch_data_of_row (some row) = some ⟨row.transcript_id, row.account_name,
        row.account_number, row.speaker_name, row.speaker_email, row.cs_email,
        row.am_email, row.transcript_text⟩) := by
  have feq : fetch_data_of_row (some row) =
      if requiredSevenNonEmpty row then
        some ⟨row.transcript_id, row.account_name, row.account_number,
          row.speaker_name, row.speaker_email, row.cs_email, row.am_email,
          row.transcript_text⟩
      else none := rfl
  refine ⟨rfl, ?_, ?_⟩
  · rw [feq]
    by_cases h : requiredSevenNonEmpty row
    · simp [h]
    · simp [h]
  · intro h
    rw [feq, if_pos h]

theorem fetch_validates_seven_fields_witness :
    requiredSevenNonEmpty ⟨"t1", "Acme", "42", "Ana", "ana@x.io", "cs@x.io",
      "am@x.io", "body"⟩ ∧
    fetch_data_of_row (some ⟨"t1", "Acme", "42", "Ana", "ana@x.io", "cs@x.io",
      "am@x.io", "body"⟩) = some ⟨"t1", "Acme", "42", "Ana", "ana@x.io",
      "cs@x.io", "am@x.io", "body"⟩ :=
  ⟨by decide,
    (fetch_validates_seven_fields ⟨"t1", "Acme", "42", "Ana", "ana@x.io",
      "cs@x.io", "am@x.io", "body"⟩).2.2 (by decide)⟩

/-- Wall-clock timeout of `assistant_bridge.py` line 21 (`TIMEOUT`
default 120). -/
def assistantTimeout : Nat := 120

/-- Sleep between status polls, `assistant_bridge.py` line 94. -/
def assistantPollSeconds : Nat := 2

/-- Number of status polls that fit in the timeout window when each
iteration costs one sleep: polls happen at elapsed 0, 2, …, 118. -/
def assistantPollBudget : Nat := assistantTimeout / assistantPollSeconds

/-- Embeds the status-polling loop of `assistant_bridge.py` lines
66-98.  `statuses n` is the run status string retrieved by the n-th
poll; `response` is the assistant message text read once the run is
`"completed"`.  On `"completed"` the trimmed response is returned when
non-empty, else `none`; on `"failed"`, `"cancelled"` or `"expired"`
`none`; when the poll budget is exhausted the timeout branch returns
`none`. -/
def get_summary_loop (statuses : Nat → String) (response : String) :
    Nat → Nat → Option String
  | 0, _ => none
  | fuel + 1, i =>
    if statuses i = "completed" then
      if response.trim ≠ "" then some response.trim else none
    else if statuses i = "failed" ∨ statuses i = "cancelled" ∨ statuses i = "expired" then
      none
    else
      get_summary_loop statuses response fuel (i + 1)

/-- Embeds `OpenAIAssistantBridge.get_summary` as a function of the
observed run statuses and the final response text. -/
def get_summary (statuses : Nat → String) (response : String) : Option String :=
  get_summary_loop statuses response assistantPollBudget 0

theorem get_summary_loop_some (statuses : Nat → String) (response : String) :
    ∀ fuel i s, get_summary_loop statuses response fuel i = some s →
      s = response.trim ∧ s ≠ "" := by
  intro fuel
  induction fuel with
  | zero => intro i s h; exact absurd h (by simp [get_summary_loop])
  | succ n ih =>
    intro i s h
    rw [get_summary_loop] at h
    split_ifs at h with h1 h2 h3
    · exact ⟨(Option.some_inj.mp h).symm, (Option.some_inj.mp h) ▸ h2⟩
    · exact ih (i + 1) s h

theorem get_summary_loop_no_complete (statuses : Nat → String) (response : String) :
    ∀ fuel i, (∀ j, j < fuel → statuses (i + j) ≠ "completed") →
      get_summary_loop statuses response fuel i = none := by
  intro fuel
  induction fuel with
  | zero => intro i _; rfl
  | succ n ih =>
    intro i h
    rw [get_summary_loop]
    have h0 : statuses i ≠ "completed" := by
      have := h 0 (Nat.succ_pos n)
      simpa using this
    rw [if_neg h0]
    split_ifs with h2
    · rfl
    · exact ih (i + 1) (fun j hj => by
        have := h (j + 1) (Nat.succ_lt_succ hj)
        simpa [Nat.add_assoc, Nat.add_comm 1 j] using this)

theorem get_summary_loop_failure (statuses : Nat → String) (response : String) :
    ∀ fuel i k, k < fuel →
      (statuses (i + k) = "failed" ∨ statuses (i + k) = "cancelled" ∨
        statuses (i + k) = "expired") →
      (∀ j, j ≤ k → statuses (i + j) ≠ "completed") →
      get_summary_loop statuses response fuel i = none := by
  intro fuel
  induction fuel with
  | zero => intro i k hk; omega
  | succ n ih =>
    intro i k hk hfail hnc
    rw [get_summary_loop]
    have h0 : statuses i ≠ "completed" := by
      have := hnc 0 (Nat.zero_le k)
      simpa using this
    rw [if_neg h0]
    by_cases h2 : statuses i = "failed" ∨ statuses i = "cancelled" ∨ statuses i = "expired"
    · rw [if_pos h2]
    · rw [if_neg h2]
      cases k with
      | zero => exact absurd (by simpa using hfail) h2
      | succ m =>
        refine ih (i + 1) m (by omega) ?_ ?_
        · have : i + 1 + m = i + (m + 1) := by omega
          rw [this]
          exact hfail
        · intro j hj
          have : i + 1 + j = i + (j + 1) := by omega
          rw [this]
          exact hnc (j + 1) (by omega)

/-- C7: `get_summary` returns `none` on a terminal failure status, on an
empty-after-trim response, and on poll-budget exhaustion (the 120-unit
timeout at 2-unit polls); any summary it does return is the trimmed
response and is non-empty. -/
theorem get_summary_failure_modes (statuses : Nat → String) (response : String) :
    (∀ s, get_summary statuses response = some s → s = response.trim ∧ s ≠ "") ∧
    (response.trim = "" → get_summary statuses response = none) ∧
    ((∀ i, i < assistantPollBudget → statuses i ≠ "completed") →
      get_summary statuses response = none) ∧
    (∀ k, k < assistantPollBudget →
      (statuses k = "failed" ∨ statuses k = "cancelled" ∨ statuses k = "expired") →
      (∀ j, j ≤ k → statuses j ≠ "completed") →
      get_summary statuses response = none) := by
  refine ⟨?_, ?_, ?_, ?_⟩
  · intro s h
    exact get_summary_loop_some statuses response assistantPollBudget 0 s h
  · intro hempty
    rcases hcase : get_summary statuses response with _ | s
    · rfl
    · have := get_summary_loop_some statuses response assistantPollBudget 0 s hcase
      exact absurd (hempty ▸ this.1) this.2
  · intro h
    exact get_summary_loop_no_complete statuses response assistantPollBudget 0
      (fun j hj => by simpa using h j hj)
  · intro k hk hfail hnc
    exact get_summary_loop_failure statuses response assistantPollBudget 0 k hk
      (by simpa using hfail) (fun j hj => by simpa using hnc j hj)

theorem get_summary_failure_modes_witness :
    get_summary (fun _ => "failed") "hello" = none :=
  (get_summary_failure_modes (fun _ => "failed") "hello").2.2.2 0 (by decide)
    (Or.inl rfl) (fun j _ => by decide)

/-- Embeds tenacity `wait_exponential(multiplier, min, max)`: the wait
after a failed attempt is the exponential `multiplier * 2 ^
attemptNumber` clamped between the configured minimum and maximum. -/
def wait_exponential (multiplier minW maxW attemptNumber : Nat) : Nat :=
  max minW (min (multiplier * 2 ^ attemptNumber) maxW)

/-- Retry driver of a tenacity-wrapped call.  `call i` is what the
underlying body does on its i-th invocation: `Except.ok` for a normal
return (including an explicit "no data" `Option.none` payload) and
`Except.error` for a raised exception.  `rem` is the number of retries
still allowed after the current invocation.  The result is paired with
the number of invocations actually made. -/
def retry_go {E A : Type} (call : Nat → Except E A) :
    Nat → Nat → Except E A × Nat
  | 0, i =>
    match call i with
    | .ok a => (.ok a, i + 1)
    | .error e => (.error e, i + 1)
  | rem + 1, i =>
    match call i with
    | .ok a => (.ok a, i + 1)
    | .error _ => retry_go call rem (i + 1)

/-- tenacity `stop_after_attempt(3)` as applied by the decorators of
`fetcher.py` lines 57-60, `assistant_bridge.py` lines 24-27 and
`email_dispatcher.py` lines 45-48: a first attempt plus at most two
retries. -/
def retry_stop3 {E A : Type} (call : Nat → Except E A) : Except E A × Nat :=
  retry_go call 2 0

/-- `drive_documenter.py` carries no retry decorator (tenacity is not
even imported there): `update_drive_docs` runs its body once and
re-raises any exception (lines 164-166). -/
def document_stage_call {E A : Type} (call : Nat → Except E A) : Except E A :=
  call 0

/-- C8 fails as stated: the document stage has no retry wrapper.  On a
call trace that raises once and would succeed afterwards, the
three-attempt wrapper used by the other stages succeeds, while the
document stage surfaces the exception immediately. -/
theorem document_stage_no_retry_counterexample :
    document_stage_call
      (fun i => if i = 0 then (.error "boom" : Except String Nat) else .ok 7) =
      .error "boom" ∧
    (retry_stop3
      (fun i => if i = 0 then (.error "boom" : Except String Nat) else .ok 7)).1 =
      .ok 7 :=
  ⟨rfl, rfl⟩

/-- C8 amended: the fetch, summarize and per-email notify wrappers
return any normal result (including an explicit "no data" payload) from
the first invocation immediately, retry only on raised exceptions up to
3 attempts in total, surface the exception of the third failed attempt,
and the configured backoff delays are clamped between 4 and 10 time
units; the document stage performs its body exactly once with no
retry. -/
theorem stage_retry_policy (E A : Type) (call : Nat → Except E A) (a : A)
    (e : Nat → E) (n : Nat) :
    (call 0 = .ok a → retry_stop3 call = (.ok a, 1)) ∧
    ((∀ i, call i = .error (e i)) → retry_stop3 call = (.error (e 2), 3)) ∧
    4 ≤ wait_exponential 1 4 10 n ∧
    wait_exponential 1 4 10 n ≤ 10 ∧
    document_stage_call call = call 0 := by
  refine ⟨?_, ?_, ?_, ?_, rfl⟩
  · intro h
    simp [retry_stop3, retry_go, h]
  · intro h
    simp [retry_stop3, retry_go, h 0, h 1, h 2]
  · exact le_max_left 4 _
  · exact max_le (by omega) (min_le_right _ 10)

theorem stage_retry_policy_witness :
    retry_stop3 (fun _ => (.ok (5 : Nat) : Except String Nat)) = (.ok 5, 1) :=
  (stage_retry_policy String Nat (fun _ => .ok 5) 5 (fun _ => "e") 0).1 rfl

/-- One structured JSON event written by `Orchestrator._log_structured`
(`orchestrator.py` lines 90-104), restricted to the fields the claims
mention. -/
structure LogEvent where
  transcript_id : String
  status : String
  module : Option String
  error : Option String
  deriving DecidableEq, Repr

/-- Outcomes of the four stage calls as seen by
`Orchestrator.process_transcript` for one attempt: `Except.error` is a
raised exception, `Except.ok` a normal return (fetch and summarize may
normally return no data). -/
structure StageResults where
  fetch : Except String (Option TranscriptData)
  summarize : Except String (Option String)
  document : Except String (String × String)
  notify : Except String (String × String)
  deriving Repr

/-- Observable effects of one `process_transcript` call: its boolean
return, the structured log events, the `error_counter` increments by
(module, error_type), the `success_counter` increments, and the ids put
back on `event_queue` by `_requeue_transcript`. -/
structure ProcessOutcome where
  success : Bool
  logs : List LogEvent
  errorCounts : List (String × String)
  successIncs : Nat
  requeues : List String
  deriving DecidableEq, Repr

/-- Embeds `Orchestrator._should_retry` (`orchestrator.py` lines
106-108): `attempt < self.max_retries`. -/
def should_retry (attempt maxRetries : Nat) : Bool :=
  attempt < maxRetries

/-- Effects of the `except Exception` block of `process_transcript`
(`orchestrator.py` lines 178-198): a `PIPELINE_ERROR` event and an
orchestrator error-counter increment always; then either one requeue of
the bare id (`_requeue_transcript`, lines 110-113) when
`_should_retry`, or a `PIPELINE_FAILED_FINAL` event. -/
def on_exception (tid : String) (attempt maxRetries : Nat) (logs : List LogEvent)
    (e : String) : ProcessOutcome :=
  let logs1 := logs ++ [⟨tid, "PIPELINE_ERROR", none, some e⟩]
  if should_retry attempt maxRetries then
    ⟨false, logs1, [("orchestrator", "general")], 0, [tid]⟩
  else
    ⟨false, logs1 ++ [⟨tid, "PIPELINE_FAILED_FINAL", none, none⟩],
      [("orchestrator", "general")], 0, []⟩

/-- Embeds `Orchestrator.process_transcript` (`orchestrator.py` lines
115-201) for one attempt, as a function of the stage outcomes: stages
run in order fetch, summarize, document, notify; a falsy fetch or
summarize result logs the stage FAILED event, bumps the per-module
error counter and returns False with no requeue; any raised exception
is handled by `on_exception`. -/
def process_transcript (tid : String) (attempt maxRetries : Nat)
    (r : StageResults) : ProcessOutcome :=
  let started := [(⟨tid, "PROCESSING_STARTED", none, none⟩ : LogEvent)]
  match r.fetch with
  | .error e => on_exception tid attempt maxRetries started e
  | .ok none =>
    ⟨false, started ++ [⟨tid, "FAILED_FETCH", some "fetcher", none⟩],
      [("fetcher", "no_data")], 0, []⟩
  | .ok (some _data) =>
    let logs1 := started ++ [⟨tid, "FETCH_SUCCESS", some "fetcher", none⟩]
    match r.summarize with
    | .error e => on_exception tid attempt maxRetries logs1 e
    | .ok none =>
      ⟨false, logs1 ++ [⟨tid, "FAILED_OAI", some "assistant", none⟩],
        [("assistant", "no_summary")], 0, []⟩
    | .ok (some _summary) =>
      let logs2 := logs1 ++ [⟨tid, "SUMMARY_SUCCESS", some "assistant", none⟩]
      match r.document with
      | .error e => on_exception tid attempt maxRetries logs2 e
      | .ok _links =>
        let logs3 := logs2 ++ [⟨tid, "DRIVE_SUCCESS", some "drive_documenter", none⟩]
        match r.notify with
        | .error e => on_exception tid attempt maxRetries logs3 e
        | .ok _status =>
          ⟨true, logs3 ++ [⟨tid, "EMAIL_SUCCESS", some "email_dispatcher", none⟩,
            ⟨tid, "PIPELINE_SUCCESS", none, none⟩], [], 1, []⟩

/-- Statuses that report a failure of the item in the structured log. -/
def isFailureLog (ev : LogEvent) : Bool :=
  ev.status == "FAILED_FETCH" || ev.status == "FAILED_OAI" ||
    ev.status == "PIPELINE_ERROR" || ev.status == "PIPELINE_FAILED_FINAL"

/-- Embeds the loop body sequence of `run_pipeline_worker`
(`orchestrator.py` lines 203-225) observed over `fuel` dequeues:
the worker takes the head identifier and calls
`self.process_transcript(transcript_id)` — the `attempt` argument keeps
its Python default of 1 because the queue stores bare ids — then the
requeues of that call join the back of the queue.  The returned list
records each processed pair (identifier, attempt). -/
def run_pipeline_worker_attempts (maxRetries : Nat)
    (results : String → StageResults) : Nat → List String → List (String × Nat)
  | 0, _ => []
  | _fuel + 1, [] => []
  | fuel + 1, tid :: rest =>
    (tid, 1) ::
      run_pipeline_worker_attempts maxRetries results fuel
        (rest ++ (process_transcript tid 1 maxRetries (results tid)).requeues)

/-- Stage outcomes of an item whose fetch raises on every attempt. -/
def alwaysRaisingResults : String → StageResults :=
  fun _ => ⟨.error "boom", .ok none, .ok ("", ""), .ok ("", "")⟩

/-- C1 as the code behaves at the failing input: `process_transcript`
at attempt 1 < 3 performs exactly one requeue of the bare id and at
attempt 3 performs none, but the worker loop re-processes every
requeued id with `attempt = 1` (the Python default), so an item whose
processing always raises is processed at attempt 1 on all of five
successive dequeues — the claimed `attempt = k+1` never reaches the
next processing and the max-retries bound never fires from the loop. -/
theorem requeue_drops_attempt_bug :
    (process_transcript "T1" 1 3 (alwaysRaisingResults "T1")).requeues = ["T1"] ∧
    (process_transcript "T1" 3 3 (alwaysRaisingResults "T1")).requeues = [] ∧
    ((process_transcript "T1" 3 3 (alwaysRaisingResults "T1")).logs.filter
      (fun ev => ev.status == "PIPELINE_FAILED_FINAL")).length = 1 ∧
    run_pipeline_worker_attempts 3 alwaysRaisingResults 5 ["T1"] =
      [("T1", 1), ("T1", 1), ("T1", 1), ("T1", 1), ("T1", 1)] :=
  ⟨rfl, rfl, rfl, rfl⟩

/-- C3: a fetch that returns no data, or a summarize that returns no
summary, ends the attempt as FAILED: return False, exactly one failure
log event (the stage's FAILED event), one increment of that module's
error counter, and zero requeues. -/
theorem none_result_fails_without_requeue (tid : String) (attempt maxRetries : Nat)
    (r : StageResults) (data : TranscriptData) :
    (r.fetch = .ok none →
      (process_transcript tid attempt maxRetries r).success = false ∧
      (process_transcript tid attempt maxRetries r).requeues = [] ∧
      (process_transcript tid attempt maxRetries r).logs.filter isFailureLog =
        [⟨tid, "FAILED_FETCH", some "fetcher", none⟩] ∧
      (process_transcript tid attempt maxRetries r).errorCounts =
        [("fetcher", "no_data")]) ∧
    (r.fetch = .ok (some data) → r.summarize = .ok none →
      (process_transcript tid attempt maxRetries r).success = false ∧
      (process_transcript tid attempt maxRetries r).requeues = [] ∧
      (process_transcript tid attempt maxRetries r).logs.filter isFailureLog =
        [⟨tid, "FAILED_OAI", some "assistant", none⟩] ∧
      (process_transcript tid attempt maxRetries r).errorCounts =
        [("assistant", "no_summary")]) := by
  constructor
  · intro hf
    simp [process_transcript, hf, isFailureLog]
  · intro hf hs
    simp [process_transcript, hf, hs, isFailureLog]

theorem none_result_fails_without_requeue_witness :
    (process_transcript "T2" 1 3 ⟨.ok none, .ok none, .ok ("", ""), .ok ("", "")⟩).success
        = false ∧
    (process_transcript "T2" 1 3 ⟨.ok none, .ok none, .ok ("", ""), .ok ("", "")⟩).requeues
        = [] ∧
    (process_transcript "T2" 1 3
        ⟨.ok none, .ok none, .ok ("", ""), .ok ("", "")⟩).logs.filter isFailureLog =
      [⟨"T2", "FAILED_FETCH", some "fetcher", none⟩] ∧
    (process_transcript "T2" 1 3
        ⟨.ok none, .ok none, .ok ("", ""), .ok ("", "")⟩).errorCounts =
      [("fetcher", "no_data")] :=
  (none_result_fails_without_requeue "T2" 1 3
    ⟨.ok none, .ok none, .ok ("", ""), .ok ("", "")⟩
    ⟨"", "", "", "", "", "", "", ""⟩).1 rfl

/-- Running flags of the two long-lived components: `Orchestrator.running`
(`orchestrator.py` line 51) and `GongListener.running` (`listener.py`
line 37) are attributes of two distinct objects. -/
structure SystemFlags where
  orchestratorRunning : Bool
  listenerRunning : Bool
  deriving DecidableEq, Repr

/-- Embeds `Orchestrator._signal_handler` (`orchestrator.py` lines
85-88): it sets `self.running = False` on the orchestrator object only;
it holds no reference to the listener, and `GongListener.stop_listening`
has no caller anywhere in the repository. -/
def signal_handler (s : SystemFlags) : SystemFlags :=
  { s with orchestratorRunning := false }

/-- Loop guard of `run_pipeline_worker` (`orchestrator.py` line 207):
`while self.running` on the orchestrator. -/
def worker_loop_guard (s : SystemFlags) : Bool :=
  s.orchestratorRunning

/-- Loop guard of `GongListener.start_listening` (`listener.py` line
86): `while self.running` on the listener object created inside
`listener_thread`. -/
def poller_loop_guard (s : SystemFlags) : Bool :=
  s.listenerRunning

/-- Embeds the blocking wait of `Orchestrator.stop` (`orchestrator.py`
lines 249-257): `event_queue.join()` returns exactly when the number of
outstanding (queued plus in-flight, not yet `task_done`) items is
zero. -/
def stop_join_returns (outstanding : Nat) : Bool :=
  outstanding == 0

/-- C2 as the code behaves: after a termination signal the worker's
loop guard is false, but the poller's loop guard reads the listener's
own flag, which the signal handler leaves untouched, so the poller does
not exit on its next iteration; the drain wait of `stop` does block
exactly until zero outstanding items. -/
theorem shutdown_flag_not_shared_bug :
    worker_loop_guard (signal_handler ⟨true, true⟩) = false ∧
    poller_loop_guard (signal_handler ⟨true, true⟩) = true ∧
    (∀ s : SystemFlags, (signal_handler s).listenerRunning = s.listenerRunning) ∧
    stop_join_returns 0 = true ∧
    stop_join_returns 1 = false :=
  ⟨rfl, rfl, fun _ => rfl, rfl, rfl⟩

/-- One Drive file as seen through the `files()` API of
`drive_documenter.py`: folders and Google Docs, distinguished by
mimeType, with a name, an optional parent and (for docs) a text body
accumulated by the docs API calls. -/
structure DriveFile where
  fileId : Nat
  name : String
  isFolder : Bool
  parent : Option Nat
  content : String
  deriving DecidableEq, Repr

/-- Drive collaborator state: the files in creation order and a fresh-id
counter; `files().list` returns matches in that order. -/
structure DriveState where
  files : List DriveFile
  nextId : Nat
  deriving DecidableEq, Repr

/-- First file matching a query, the `items[0]` choice of the
`get_or_create` helpers. -/
def findFile (p : DriveFile → Bool) : List DriveFile → Option DriveFile
  | [] => none
  | f :: fs => if p f then some f else findFile p fs

/-- `self.clients_folder_name` of `drive_documenter.py` line 32. -/
def clients_folder_name : String := "Clientes"

/-- Embeds `get_or_create_clients_folder` (`drive_documenter.py` lines
34-50): the query matches on name and folder mimeType, with no parent
constraint; on no match a parentless folder is created. -/
def get_or_create_clients_folder (s : DriveState) : Nat × DriveState :=
  match findFile (fun f => f.name == clients_folder_name && f.isFolder) s.files with
  | some f => (f.fileId, s)
  | none =>
    (s.nextId,
      ⟨s.files ++ [⟨s.nextId, clients_folder_name, true, none, ""⟩], s.nextId + 1⟩)

/-- Embeds `get_or_create_account_folder` (`drive_documenter.py` lines
52-71): query by name, folder mimeType and parent `Clientes`. -/
def get_or_create_account_folder (accountName : String) (s : DriveState) :
    Nat × DriveState :=
  let r := get_or_create_clients_folder s
  match findFile
      (fun f => f.name == accountName && f.isFolder && f.parent == some r.1)
      r.2.files with
  | some f => (f.fileId, r.2)
  | none =>
    (r.2.nextId,
      ⟨r.2.files ++ [⟨r.2.nextId, accountName, true, some r.1, ""⟩], r.2.nextId + 1⟩)

/-- Embeds `get_or_create_doc` (`drive_documenter.py` lines 73-90):
query by name, document mimeType and parent folder; a created doc
starts empty. -/
def get_or_create_doc (folderId : Nat) (docName : String) (s : DriveState) :
    Nat × DriveState :=
  match findFile
      (fun f => f.name == docName && !f.isFolder && f.parent == some folderId)
      s.files with
  | some f => (f.fileId, s)
  | none =>
    (s.nextId,
      ⟨s.files ++ [⟨s.nextId, docName, false, some folderId, ""⟩], s.nextId + 1⟩)

/-- Embeds `overwrite_doc` (`drive_documenter.py` lines 92-122): delete
the whole existing body, then insert the new content — net effect, the
body becomes exactly `content`. -/
def overwrite_doc (docId : Nat) (content : String) (s : DriveState) : DriveState :=
  ⟨s.files.map (fun f =>
    if f.fileId == docId then
      ⟨f.fileId, f.name, f.isFolder, f.parent, content⟩
    else f), s.nextId⟩

/-- Embeds `append_to_doc` (`drive_documenter.py` lines 124-137):
insert `content` at the end offset of the current body. -/
def append_to_doc (docId : Nat) (content : String) (s : DriveState) : DriveState :=
  ⟨s.files.map (fun f =>
    if f.fileId == docId then
      ⟨f.fileId, f.name, f.isFolder, f.parent, f.content ++ content⟩
    else f), s.nextId⟩

/-- Embeds `get_doc_url` (`drive_documenter.py` lines 139-141). -/
def get_doc_url (docId : Nat) : String :=
  "https://docs.google.com/document/d/" ++ toString docId ++ "/edit"

/-- Log line appended per call, `drive_documenter.py` lines 156-157. -/
def drive_log_entry (timestamp summary : String) : String :=
  "\n--- " ++ timestamp ++ " ---\n" ++ summary ++ "\n"

/-- Embeds `update_drive_docs` (`drive_documenter.py` lines 143-162):
locate-or-create the account folder, locate-or-create "Call Summary"
and replace its body with the summary, locate-or-create "Summary Log"
and append one timestamped entry, and return the two doc URLs. -/
def update_drive_docs (accountName summary timestamp : String) (s : DriveState) :
    (String × String) × DriveState :=
  let rf := get_or_create_account_folder accountName s
  let rc := get_or_create_doc rf.1 "Call Summary" rf.2
  let s3 := overwrite_doc rc.1 summary rc.2
  let rl := get_or_create_doc rf.1 "Summary Log" s3
  let s5 := append_to_doc rl.1 (drive_log_entry timestamp summary) rl.2
  ((get_doc_url rc.1, get_doc_url rl.1), s5)

/-- Drive state before any pipeline run touched it. -/
def emptyDrive : DriveState := ⟨[], 0⟩

theorem drive_first_call (a s1 t1 : String) :
    update_drive_docs a s1 t1 emptyDrive =
      ((get_doc_url 2, get_doc_url 3),
        ⟨[⟨0, clients_folder_name, true, none, ""⟩,
          ⟨1, a, true, some 0, ""⟩,
          ⟨2, "Call Summary", false, some 1, s1⟩,
          ⟨3, "Summary Log", false, some 1, "" ++ drive_log_entry t1 s1⟩], 4⟩) := by
  simp [update_drive_docs, get_or_create_account_folder,
    get_or_create_clients_folder, get_or_create_doc, findFile, overwrite_doc,
    append_to_doc, emptyDrive, clients_folder_name]

theorem drive_second_call (a s1 t1 s2 t2 : String) :
    update_drive_docs a s2 t2
        (⟨[⟨0, clients_folder_name, true, none, ""⟩,
          ⟨1, a, true, some 0, ""⟩,
          ⟨2, "Call Summary", false, some 1, s1⟩,
          ⟨3, "Summary Log", false, some 1, "" ++ drive_log_entry t1 s1⟩], 4⟩ :
          DriveState) =
      ((get_doc_url 2, get_doc_url 3),
        ⟨[⟨0, clients_folder_name, true, none, ""⟩,
          ⟨1, a, true, some 0, ""⟩,
          ⟨2, "Call Summary", false, some 1, s2⟩,
          ⟨3, "Summary Log", false, some 1,
            ("" ++ drive_log_entry t1 s1) ++ drive_log_entry t2 s2⟩], 4⟩) := by
  simp [update_drive_docs, get_or_create_account_folder,
    get_or_create_clients_folder, get_or_create_doc, findFile, overwrite_doc,
    append_to_doc, clients_folder_name]

/-- C9: starting from an untouched Drive, two document-stage calls for
the same account leave exactly one "Call Summary" document, whose body
is the second summary (replaced, not duplicated), and exactly one
"Summary Log" document, whose body is the concatenation of one
timestamped entry per call. -/
theorem update_drive_docs_idempotent (accountName s1 s2 ts1 ts2 : String) :
    (((update_drive_docs accountName s2 ts2
        (update_drive_docs accountName s1 ts1 emptyDrive).2).2.files.filter
      (fun f => f.name == "Call Summary" && !f.isFolder)).map
        (fun f => f.content)) = [s2] ∧
    (((update_drive_docs accountName s2 ts2
        (update_drive_docs accountName s1 ts1 emptyDrive).2).2.files.filter
      (fun f => f.name == "Summary Log" && !f.isFolder)).map
        (fun f => f.content)) =
      [drive_log_entry ts1 s1 ++ drive_log_entry ts2 s2] := by
  rw [drive_first_call]
  rw [drive_second_call]
  constructor <;> simp [List.filter, clients_folder_name]

end BeaconSnowflake
